import Mathlib

/-!
Shallow embedding of `mistralrs/src/lora_model.rs` (`LoraModelBuilder::build`
and the data it manipulates).  Pure data (configs, descriptors, the runner
builder) is embedded as Lean structures; the external collaborators that
`build` merely invokes (the device probe, the text loader finalization, the
model-from-hub loading) are passed in as explicit oracle parameters, so that
`build` itself is a pure function from a descriptor, an adapter list and the
oracles to an outcome.  A process-terminating `unwrap` on `None` is embedded
as a distinguished `panicked` outcome, separate from recoverable errors.
-/

/-- Errors surfaced by `build`: either the `try_into` conversion failure on
`max_num_seqs`, or an error propagated verbatim from an external collaborator
(loader finalization, device probe, hub loading), identified by a code. -/
inductive Err where
  | conv : Err
  | ext : Nat → Err
deriving DecidableEq, Repr

/-- Outcome of `build`: success, a recoverable error returned to the caller,
or process termination (`unwrap` on `None` in the reference code). -/
inductive BuildOutcome (α : Type) where
  | ok : α → BuildOutcome α
  | err : Err → BuildOutcome α
  | panicked : BuildOutcome α
deriving DecidableEq, Repr

/-- Opaque payloads (topology, ISQ types, dtypes, devices, cache configs,
callbacks, ...) are embedded as natural-number identifiers: the code under
verification only moves them around, never inspects them. -/
abbrev CacheConfig := Nat

abbrev Device := Nat

/-- The loaded pipeline, reduced to the only metadata `build` reads from it:
`get_metadata().cache_config`, an optional paged-attention cache
configuration. -/
structure Pipeline where
  cache_config : Option CacheConfig
deriving DecidableEq, Repr

inductive DefaultSchedulerMethod where
  | Fixed : Nat → DefaultSchedulerMethod
deriving DecidableEq, Repr

inductive SchedulerConfig where
  | PagedAttentionMeta : Nat → CacheConfig → SchedulerConfig
  | DefaultScheduler : DefaultSchedulerMethod → SchedulerConfig
deriving DecidableEq, Repr

/-- Modelled from the spec: `DefaultSchedulerMethod::Fixed`'s payload type
(the scheduler's unsigned capacity integer type) is declared outside the
source under verification; the spec says `max_num_seqs` "must fit in the
target's unsigned capacity type or the operation fails with a conversion
error".  We model the capacity type as naturals below this bound. -/
def capacityBound : Nat := 2 ^ 64

/-- Modelled from the spec: the `try_into()?` conversion of `max_num_seqs`
into the scheduler's unsigned capacity type, failing with a conversion error
exactly when the value does not fit. -/
def tryIntoCapacity (n : Nat) : Except Err Nat :=
  if n < capacityBound then .ok n else .error .conv

/-- `NormalSpecificConfig` as populated on the text path (lines 47-57). -/
structure NormalSpecificConfig where
  topology : Option Nat
  organization : Nat
  write_uqff : Option Nat
  from_uqff : Option Nat
  imatrix : Option Nat
  calibration_file : Option Nat
  hf_cache_path : Option Nat
  matformer_config_path : Option Nat
  matformer_slice_name : Option Nat
deriving DecidableEq, Repr

/-- `VisionSpecificConfig` as populated on the vision path (lines 134-144). -/
structure VisionSpecificConfig where
  topology : Option Nat
  write_uqff : Option Nat
  from_uqff : Option Nat
  max_edge : Option Nat
  calibration_file : Option Nat
  imatrix : Option Nat
  hf_cache_path : Option Nat
  matformer_config_path : Option Nat
  matformer_slice_name : Option Nat
deriving DecidableEq, Repr

/-- The text descriptor (`TextModelBuilder`), restricted to the fields
`LoraModelBuilder::build` reads.  Declared outside the source under
verification; fields and their optionality are taken from their uses in
`build`. -/
structure TextModelBuilder where
  model_id : String
  topology : Option Nat
  organization : Nat
  write_uqff : Option Nat
  from_uqff : Option Nat
  hf_cache_path : Option Nat
  chat_template : Option String
  tokenizer_json : Option String
  no_kv_cache : Bool
  jinja_explicit : Option String
  loader_type : Option Nat
  hf_revision : Option String
  token_source : Nat
  dtype : Nat
  device : Option Device
  force_cpu : Bool
  device_mapping : Option Nat
  isq : Option Nat
  paged_attn_cfg : Option Nat
  max_num_seqs : Nat
  with_logging : Bool
  throughput_logging : Bool
  search_bert_model : Option String
  search_callback : Option Nat
  tool_callbacks : List (String × Nat)
  prefix_cache_n : Option Nat
deriving DecidableEq, Repr

/-- The vision descriptor (`VisionModelBuilder`), restricted to the fields
`LoraModelBuilder::build` reads.  It has no `organization` and no
`no_kv_cache` field, and adds `max_edge`, `calibration_file`, `imatrix`,
matformer parameters and the tool-callbacks-with-bound-tool table. -/
structure VisionModelBuilder where
  model_id : String
  topology : Option Nat
  write_uqff : Option Nat
  from_uqff : Option Nat
  max_edge : Option Nat
  calibration_file : Option Nat
  imatrix : Option Nat
  hf_cache_path : Option Nat
  matformer_config_path : Option Nat
  matformer_slice_name : Option Nat
  chat_template : Option String
  tokenizer_json : Option String
  jinja_explicit : Option String
  loader_type : Option Nat
  hf_revision : Option String
  token_source : Nat
  dtype : Nat
  device : Option Device
  force_cpu : Bool
  device_mapping : Option Nat
  isq : Option Nat
  paged_attn_cfg : Option Nat
  max_num_seqs : Nat
  with_logging : Bool
  throughput_logging : Bool
  search_bert_model : Option String
  search_callback : Option Nat
  tool_callbacks : List (String × Nat)
  tool_callbacks_with_tools : List (String × Nat × Nat)
  prefix_cache_n : Option Nat
deriving DecidableEq, Repr

/-- The Config Projector, text path: the `NormalSpecificConfig` struct
literal at lines 47-57 of the source. -/
def textLoadConfig (t : TextModelBuilder) : NormalSpecificConfig :=
  { topology := t.topology
    organization := t.organization
    write_uqff := t.write_uqff
    from_uqff := t.from_uqff
    imatrix := none
    calibration_file := none
    hf_cache_path := t.hf_cache_path
    matformer_config_path := none
    matformer_slice_name := none }

/-- The Config Projector, vision path: the `VisionSpecificConfig` struct
literal at lines 134-144 of the source. -/
def visionLoadConfig (v : VisionModelBuilder) : VisionSpecificConfig :=
  { topology := v.topology
    write_uqff := v.write_uqff
    from_uqff := v.from_uqff
    max_edge := v.max_edge
    calibration_file := v.calibration_file
    imatrix := v.imatrix
    hf_cache_path := v.hf_cache_path
    matformer_config_path := v.matformer_config_path
    matformer_slice_name := v.matformer_slice_name }

/-- State of a `NormalLoaderBuilder`.  Modelled from the spec: the builder
itself is declared outside the source under verification; its observable
state is the arguments `new` received plus the attached adapter list. -/
structure NormalLoaderBuilder where
  config : NormalSpecificConfig
  chat_template : Option String
  tokenizer_json : Option String
  model_id : Option String
  no_kv_cache : Bool
  jinja_explicit : Option String
  lora_adapter_ids : List String
deriving DecidableEq, Repr

/-- Modelled from the spec: `NormalLoaderBuilder::new` starts with no
adapters attached (an adapter-free, pass-through loader). -/
def NormalLoaderBuilder.new (config : NormalSpecificConfig)
    (chat_template tokenizer_json model_id : Option String)
    (no_kv_cache : Bool) (jinja_explicit : Option String) :
    NormalLoaderBuilder :=
  ⟨config, chat_template, tokenizer_json, model_id, no_kv_cache,
    jinja_explicit, []⟩

/-- Modelled from the spec: `with_lora` attaches the adapter list,
unconditionally; an empty list leaves the loader adapter-free. -/
def NormalLoaderBuilder.with_lora (b : NormalLoaderBuilder)
    (ids : List String) : NormalLoaderBuilder :=
  { b with lora_adapter_ids := ids }

/-- State of a `VisionLoaderBuilder` (no `no_kv_cache` argument). -/
structure VisionLoaderBuilder where
  config : VisionSpecificConfig
  chat_template : Option String
  tokenizer_json : Option String
  model_id : Option String
  jinja_explicit : Option String
  lora_adapter_ids : List String
deriving DecidableEq, Repr

/-- Modelled from the spec: `VisionLoaderBuilder::new`, adapter-free. -/
def VisionLoaderBuilder.new (config : VisionSpecificConfig)
    (chat_template tokenizer_json model_id jinja_explicit : Option String) :
    VisionLoaderBuilder :=
  ⟨config, chat_template, tokenizer_json, model_id, jinja_explicit, []⟩

/-- Modelled from the spec: `with_lora` on the vision loader builder. -/
def VisionLoaderBuilder.with_lora (b : VisionLoaderBuilder)
    (ids : List String) : VisionLoaderBuilder :=
  { b with lora_adapter_ids := ids }

/-- The loader the text path assembles before finalization:
`NormalLoaderBuilder::new(config, ...)` chained with `.with_lora(...)`
(lines 63-71). -/
def textLoader (t : TextModelBuilder) (ids : List String) :
    NormalLoaderBuilder :=
  (NormalLoaderBuilder.new (textLoadConfig t) t.chat_template
    t.tokenizer_json (some t.model_id) t.no_kv_cache
    t.jinja_explicit).with_lora ids

/-- The same loader with no LoRA support requested (`with_lora` never
called). -/
def textLoaderNoLora (t : TextModelBuilder) : NormalLoaderBuilder :=
  NormalLoaderBuilder.new (textLoadConfig t) t.chat_template
    t.tokenizer_json (some t.model_id) t.no_kv_cache t.jinja_explicit

/-- The loader the vision path assembles (lines 150-157). -/
def visionLoader (v : VisionModelBuilder) (ids : List String) :
    VisionLoaderBuilder :=
  (VisionLoaderBuilder.new (visionLoadConfig v) v.chat_template
    v.tokenizer_json (some v.model_id) v.jinja_explicit).with_lora ids

/-- The vision loader with no LoRA support requested. -/
def visionLoaderNoLora (v : VisionModelBuilder) : VisionLoaderBuilder :=
  VisionLoaderBuilder.new (visionLoadConfig v) v.chat_template
    v.tokenizer_json (some v.model_id) v.jinja_explicit

/-- Device resolution: `device.unwrap_or(best_device(force_cpu)?)`.  Rust
evaluates `unwrap_or`'s argument eagerly, so the probe's error propagates
even when an explicit device is present.  The probe itself is external and
passed in as `bestDevice`. -/
def resolveDevice (device : Option Device)
    (bestDevice : Except Err Device) : Except Err Device :=
  match bestDevice with
  | .error e => .error e
  | .ok d => .ok (device.getD d)

/-- The Scheduler Selector, text path (lines 90-109): if paged attention was
requested, `cache_config.as_ref().unwrap()` terminates the process when the
pipeline reports no cache configuration; otherwise a fixed default scheduler
from the converted `max_num_seqs`. -/
def textSchedulerMethod (t : TextModelBuilder) (pipeline : Pipeline) :
    BuildOutcome SchedulerConfig :=
  match t.paged_attn_cfg with
  | some _ =>
    match pipeline.cache_config with
    | none => .panicked
    | some config => .ok (.PagedAttentionMeta t.max_num_seqs config)
  | none =>
    match tryIntoCapacity t.max_num_seqs with
    | .error e => .err e
    | .ok n => .ok (.DefaultScheduler (.Fixed n))

/-- The Scheduler Selector, vision path (lines 177-205): an absent cache
configuration falls back to the default scheduler instead of terminating. -/
def visionSchedulerMethod (v : VisionModelBuilder) (pipeline : Pipeline) :
    BuildOutcome SchedulerConfig :=
  match v.paged_attn_cfg with
  | some _ =>
    match pipeline.cache_config with
    | some config => .ok (.PagedAttentionMeta v.max_num_seqs config)
    | none =>
      match tryIntoCapacity v.max_num_seqs with
      | .error e => .err e
      | .ok n => .ok (.DefaultScheduler (.Fixed n))
  | none =>
    match tryIntoCapacity v.max_num_seqs with
    | .error e => .err e
    | .ok n => .ok (.DefaultScheduler (.Fixed n))

/-- State of the runner builder (`MistralRsBuilder`) as far as `build`
mutates it. -/
structure MistralRsBuilder where
  pipeline : Pipeline
  method : SchedulerConfig
  throughput_logging : Bool
  search_bert_model : Option String
  search_callback : Option Nat
  tool_callbacks : List (String × Nat)
  tool_callbacks_with_tools : List (String × Nat × Nat)
  no_kv_cache : Bool
  no_prefix_cache : Bool
  prefix_cache_n : Option Nat
deriving DecidableEq, Repr

/-- Modelled from the spec: `MistralRsBuilder::new(pipeline, scheduler,
throughput_logging, search_bert_model)`; the remaining state starts empty. -/
def MistralRsBuilder.new (pipeline : Pipeline) (method : SchedulerConfig)
    (throughput_logging : Bool) (search_bert_model : Option String) :
    MistralRsBuilder :=
  ⟨pipeline, method, throughput_logging, search_bert_model, none, [], [],
    false, false, none⟩

def MistralRsBuilder.with_search_callback (r : MistralRsBuilder)
    (cb : Nat) : MistralRsBuilder :=
  { r with search_callback := some cb }

def MistralRsBuilder.with_tool_callback (r : MistralRsBuilder)
    (name : String) (cb : Nat) : MistralRsBuilder :=
  { r with tool_callbacks := r.tool_callbacks ++ [(name, cb)] }

def MistralRsBuilder.with_tool_callback_and_tool (r : MistralRsBuilder)
    (name : String) (cb tool : Nat) : MistralRsBuilder :=
  { r with tool_callbacks_with_tools :=
      r.tool_callbacks_with_tools ++ [(name, cb, tool)] }

def MistralRsBuilder.with_no_kv_cache (r : MistralRsBuilder) (b : Bool) :
    MistralRsBuilder :=
  { r with no_kv_cache := b }

def MistralRsBuilder.with_no_prefix_cache (r : MistralRsBuilder)
    (b : Bool) : MistralRsBuilder :=
  { r with no_prefix_cache := b }

def MistralRsBuilder.with_prefix_cache_n (r : MistralRsBuilder) (n : Nat) :
    MistralRsBuilder :=
  { r with prefix_cache_n := some n }

/-- Finalization (`runner.build().await`) freezes the accumulated state. -/
def MistralRsBuilder.build (r : MistralRsBuilder) : MistralRsBuilder := r

/-- The servable `Model` wrapping the finished runner. -/
structure Model where
  runner : MistralRsBuilder
deriving DecidableEq, Repr

def Model.new (runner : MistralRsBuilder) : Model := ⟨runner⟩

/-- The Runtime Builder, text path (lines 111-131): runner construction,
optional search callback, tool-callback registration in list order, then the
KV-cache and prefix-cache toggles. -/
def textRunner (t : TextModelBuilder) (pipeline : Pipeline)
    (scheduler_method : SchedulerConfig) : Model :=
  let runner := MistralRsBuilder.new pipeline scheduler_method
    t.throughput_logging t.search_bert_model
  let runner := match t.search_callback with
    | some cb => runner.with_search_callback cb
    | none => runner
  let runner := t.tool_callbacks.foldl
    (fun r p => r.with_tool_callback p.1 p.2) runner
  let runner := (runner.with_no_kv_cache t.no_kv_cache).with_no_prefix_cache
    t.prefix_cache_n.isNone
  let runner := match t.prefix_cache_n with
    | some n => runner.with_prefix_cache_n n
    | none => runner
  Model.new runner.build

/-- The Runtime Builder, vision path (lines 207-234): additionally registers
the tool-callbacks-with-bound-tool table, and hard-disables the no-KV-cache
toggle (`with_no_kv_cache(false)`). -/
def visionRunner (v : VisionModelBuilder) (pipeline : Pipeline)
    (scheduler_method : SchedulerConfig) : Model :=
  let runner := MistralRsBuilder.new pipeline scheduler_method
    v.throughput_logging v.search_bert_model
  let runner := match v.search_callback with
    | some cb => runner.with_search_callback cb
    | none => runner
  let runner := v.tool_callbacks.foldl
    (fun r p => r.with_tool_callback p.1 p.2) runner
  let runner := v.tool_callbacks_with_tools.foldl
    (fun r p => r.with_tool_callback_and_tool p.1 p.2.1 p.2.2) runner
  let runner := (runner.with_no_kv_cache false).with_no_prefix_cache
    v.prefix_cache_n.isNone
  let runner := match v.prefix_cache_n with
    | some n => runner.with_prefix_cache_n n
    | none => runner
  Model.new runner.build

/-- `build`, text arm (lines 46-132).  External collaborators are oracles:
`loaderBuildErr` is the outcome of the fallible `NormalLoaderBuilder::build`
(line 72, `?`), `bestDevice` the device probe, `load` the
`load_model_from_hf` call keyed by the assembled loader. -/
def buildText (t : TextModelBuilder) (ids : List String)
    (loaderBuildErr : Option Err)
    (bestDevice : Bool → Except Err Device)
    (load : NormalLoaderBuilder → Except Err Pipeline) :
    BuildOutcome Model :=
  let loader := textLoader t ids
  match loaderBuildErr with
  | some e => .err e
  | none =>
    match resolveDevice t.device (bestDevice t.force_cpu) with
    | .error e => .err e
    | .ok _device =>
      match load loader with
      | .error e => .err e
      | .ok pipeline =>
        match textSchedulerMethod t pipeline with
        | .panicked => .panicked
        | .err e => .err e
        | .ok scheduler_method =>
          .ok (textRunner t pipeline scheduler_method)

/-- `build`, vision arm (lines 133-235).  `VisionLoaderBuilder::build` (line
158) is infallible, so there is no loader-finalization error oracle. -/
def buildVision (v : VisionModelBuilder) (ids : List String)
    (bestDevice : Bool → Except Err Device)
    (load : VisionLoaderBuilder → Except Err Pipeline) :
    BuildOutcome Model :=
  let loader := visionLoader v ids
  match resolveDevice v.device (bestDevice v.force_cpu) with
  | .error e => .err e
  | .ok _device =>
    match load loader with
    | .error e => .err e
    | .ok pipeline =>
      match visionSchedulerMethod v pipeline with
      | .panicked => .panicked
      | .err e => .err e
      | .ok scheduler_method =>
        .ok (visionRunner v pipeline scheduler_method)

/-! Helper lemmas about the runner wiring and the build outcomes. -/

/-- Registering tool callbacks only grows the `tool_callbacks` table; every
other runner field is untouched by the registration loop. -/
theorem toolCallbackFold_state (l : List (String × Nat))
    (r : MistralRsBuilder) :
    (List.foldl (fun r p => r.with_tool_callback p.1 p.2) r l).method =
      r.method ∧
    (List.foldl (fun r p => r.with_tool_callback p.1 p.2) r l).no_kv_cache =
      r.no_kv_cache ∧
    (List.foldl (fun r p =>
        r.with_tool_callback p.1 p.2) r l).no_prefix_cache =
      r.no_prefix_cache ∧
    (List.foldl (fun r p =>
        r.with_tool_callback p.1 p.2) r l).prefix_cache_n =
      r.prefix_cache_n := by
  induction l generalizing r with
  | nil => exact ⟨rfl, rfl, rfl, rfl⟩
  | cons a l ih => exact ih (r.with_tool_callback a.1 a.2)

/-- The vision-only registration loop for tool callbacks bound to a tool
likewise touches only its own table. -/
theorem toolWithToolFold_state (l : List (String × Nat × Nat))
    (r : MistralRsBuilder) :
    (List.foldl (fun r p =>
        r.with_tool_callback_and_tool p.1 p.2.1 p.2.2) r l).method =
      r.method ∧
    (List.foldl (fun r p =>
        r.with_tool_callback_and_tool p.1 p.2.1 p.2.2) r l).no_kv_cache =
      r.no_kv_cache ∧
    (List.foldl (fun r p =>
        r.with_tool_callback_and_tool p.1 p.2.1 p.2.2) r l).no_prefix_cache =
      r.no_prefix_cache ∧
    (List.foldl (fun r p =>
        r.with_tool_callback_and_tool p.1 p.2.1 p.2.2) r l).prefix_cache_n =
      r.prefix_cache_n := by
  induction l generalizing r with
  | nil => exact ⟨rfl, rfl, rfl, rfl⟩
  | cons a l ih => exact ih (r.with_tool_callback_and_tool a.1 a.2.1 a.2.2)

/-- Fields of the finished text runner: the scheduler policy is installed
verbatim, the KV-cache toggle is the caller's `no_kv_cache`, prefix caching
is disabled exactly when no depth was given, and the depth is carried
through. -/
theorem textRunner_state (t : TextModelBuilder) (p : Pipeline)
    (sm : SchedulerConfig) :
    (textRunner t p sm).runner.method = sm ∧
    (textRunner t p sm).runner.no_kv_cache = t.no_kv_cache ∧
    (textRunner t p sm).runner.no_prefix_cache = t.prefix_cache_n.isNone ∧
    (textRunner t p sm).runner.prefix_cache_n = t.prefix_cache_n := by
  simp only [textRunner]
  cases hn : t.prefix_cache_n with
  | none =>
    cases hs : t.search_callback with
    | none =>
      exact ⟨(toolCallbackFold_state _ _).1, rfl, rfl,
        (toolCallbackFold_state _ _).2.2.2⟩
    | some cb =>
      exact ⟨(toolCallbackFold_state _ _).1, rfl, rfl,
        (toolCallbackFold_state _ _).2.2.2⟩
  | some n =>
    cases hs : t.search_callback with
    | none => exact ⟨(toolCallbackFold_state _ _).1, rfl, rfl, rfl⟩
    | some cb => exact ⟨(toolCallbackFold_state _ _).1, rfl, rfl, rfl⟩

/-- Fields of the finished vision runner: the scheduler policy is installed
verbatim, the KV-cache toggle is hard-disabled to `false`, and the
prefix-cache fields behave as on the text path. -/
theorem visionRunner_state (v : VisionModelBuilder) (p : Pipeline)
    (sm : SchedulerConfig) :
    (visionRunner v p sm).runner.method = sm ∧
    (visionRunner v p sm).runner.no_kv_cache = false ∧
    (visionRunner v p sm).runner.no_prefix_cache = v.prefix_cache_n.isNone ∧
    (visionRunner v p sm).runner.prefix_cache_n = v.prefix_cache_n := by
  simp only [visionRunner]
  cases hn : v.prefix_cache_n with
  | none =>
    cases hs : v.search_callback with
    | none =>
      exact ⟨(toolWithToolFold_state _ _).1.trans
          (toolCallbackFold_state _ _).1, rfl, rfl,
        (toolWithToolFold_state _ _).2.2.2.trans
          (toolCallbackFold_state _ _).2.2.2⟩
    | some cb =>
      exact ⟨(toolWithToolFold_state _ _).1.trans
          (toolCallbackFold_state _ _).1, rfl, rfl,
        (toolWithToolFold_state _ _).2.2.2.trans
          (toolCallbackFold_state _ _).2.2.2⟩
  | some n =>
    cases hs : v.search_callback with
    | none =>
      exact ⟨(toolWithToolFold_state _ _).1.trans
        (toolCallbackFold_state _ _).1, rfl, rfl, rfl⟩
    | some cb =>
      exact ⟨(toolWithToolFold_state _ _).1.trans
        (toolCallbackFold_state _ _).1, rfl, rfl, rfl⟩

/-- The only error `try_into` on `max_num_seqs` can produce is the
conversion error. -/
theorem tryIntoCapacity_error (n : Nat) (e : Err)
    (h : tryIntoCapacity n = .error e) : e = .conv := by
  unfold tryIntoCapacity at h
  split at h
  · exact absurd h (by simp)
  · exact (Except.error.inj h).symm

/-- The vision scheduler selector can only fail with the conversion error. -/
theorem visionSchedulerMethod_error (v : VisionModelBuilder) (p : Pipeline)
    (e : Err) (h : visionSchedulerMethod v p = .err e) : e = .conv := by
  unfold visionSchedulerMethod at h
  split at h
  · split at h
    · exact absurd h (by simp)
    · split at h
      · rename_i e2 heq
        exact (BuildOutcome.err.inj h) ▸ tryIntoCapacity_error _ _ heq
      · exact absurd h (by simp)
  · split at h
    · rename_i e2 heq
      exact (BuildOutcome.err.inj h) ▸ tryIntoCapacity_error _ _ heq
    · exact absurd h (by simp)

/-- Inversion for a successful text build: the returned model is the wired
text runner for some pipeline and scheduler policy. -/
theorem buildText_ok_inv (t : TextModelBuilder) (ids : List String)
    (lbe : Option Err) (bd : Bool → Except Err Device)
    (load : NormalLoaderBuilder → Except Err Pipeline) (m : Model)
    (h : buildText t ids lbe bd load = .ok m) :
    ∃ p sm, m = textRunner t p sm := by
  simp only [buildText] at h
  split at h
  · exact absurd h (by simp)
  · split at h
    · exact absurd h (by simp)
    · split at h
      · exact absurd h (by simp)
      · split at h
        · exact absurd h (by simp)
        · exact absurd h (by simp)
        · exact ⟨_, _, (BuildOutcome.ok.inj h).symm⟩

/-- Inversion for a successful vision build. -/
theorem buildVision_ok_inv (v : VisionModelBuilder) (ids : List String)
    (bd : Bool → Except Err Device)
    (load : VisionLoaderBuilder → Except Err Pipeline) (m : Model)
    (h : buildVision v ids bd load = .ok m) :
    ∃ p sm, m = visionRunner v p sm := by
  simp only [buildVision] at h
  split at h
  · exact absurd h (by simp)
  · split at h
    · exact absurd h (by simp)
    · split at h
      · exact absurd h (by simp)
      · exact absurd h (by simp)
      · exact ⟨_, _, (BuildOutcome.ok.inj h).symm⟩

/-- Inversion for a failed vision build: the error came from the device
probe, from hub loading, or is the `max_num_seqs` conversion error. -/
theorem buildVision_err_inv (v : VisionModelBuilder) (ids : List String)
    (bd : Bool → Except Err Device)
    (load : VisionLoaderBuilder → Except Err Pipeline) (e : Err)
    (h : buildVision v ids bd load = .err e) :
    bd v.force_cpu = .error e ∨
    load (visionLoader v ids) = .error e ∨ e = .conv := by
  cases hbd : bd v.force_cpu with
  | error e2 =>
    left
    simp only [buildVision, resolveDevice, hbd] at h
    exact congrArg Except.error (BuildOutcome.err.inj h)
  | ok d =>
    cases hld : load (visionLoader v ids) with
    | error e2 =>
      right; left
      simp only [buildVision, resolveDevice, hbd, hld] at h
      exact congrArg Except.error (BuildOutcome.err.inj h)
    | ok p =>
      right; right
      simp only [buildVision, resolveDevice, hbd, hld] at h
      cases hs : visionSchedulerMethod v p with
      | panicked => rw [hs] at h; exact absurd h (by simp)
      | err e2 =>
        rw [hs] at h
        exact (BuildOutcome.err.inj h) ▸ visionSchedulerMethod_error v p e2 hs
      | ok sm => rw [hs] at h; exact absurd h (by simp)

/-! Concrete fixtures used to instantiate the theorems below. -/

/-- A concrete text descriptor requesting paged attention, with
`max_num_seqs = 16`. -/
def tEx : TextModelBuilder :=
  { model_id := "base-model"
    topology := none
    organization := 0
    write_uqff := none
    from_uqff := none
    hf_cache_path := none
    chat_template := none
    tokenizer_json := none
    no_kv_cache := true
    jinja_explicit := none
    loader_type := none
    hf_revision := none
    token_source := 0
    dtype := 0
    device := none
    force_cpu := false
    device_mapping := none
    isq := none
    paged_attn_cfg := some 0
    max_num_seqs := 16
    with_logging := false
    throughput_logging := false
    search_bert_model := none
    search_callback := none
    tool_callbacks := []
    prefix_cache_n := none }

/-- The same text descriptor without a paged-attention request. -/
def tExNoPaged : TextModelBuilder := { tEx with paged_attn_cfg := none }

/-- A concrete vision descriptor requesting paged attention, with
`max_num_seqs = 8` and a prefix-cache depth of 4. -/
def vEx : VisionModelBuilder :=
  { model_id := "base-vision-model"
    topology := none
    write_uqff := none
    from_uqff := none
    max_edge := none
    calibration_file := none
    imatrix := none
    hf_cache_path := none
    matformer_config_path := none
    matformer_slice_name := none
    chat_template := none
    tokenizer_json := none
    jinja_explicit := none
    loader_type := none
    hf_revision := none
    token_source := 0
    dtype := 0
    device := none
    force_cpu := false
    device_mapping := none
    isq := none
    paged_attn_cfg := some 0
    max_num_seqs := 8
    with_logging := false
    throughput_logging := false
    search_bert_model := none
    search_callback := none
    tool_callbacks := []
    tool_callbacks_with_tools := []
    prefix_cache_n := some 4 }

/-- The same vision descriptor without a paged-attention request. -/
def vExNoPaged : VisionModelBuilder := { vEx with paged_attn_cfg := none }

/-- A device probe that always succeeds. -/
def bdEx : Bool → Except Err Device := fun _ => .ok 0

/-- A device probe that always fails. -/
def bdExFail : Bool → Except Err Device := fun _ => .error (.ext 5)

/-- A hub-load oracle for the text path returning a pipeline with the given
cache configuration. -/
def loadTextWith (c : Option Nat) :
    NormalLoaderBuilder → Except Err Pipeline := fun _ => .ok ⟨c⟩

/-- A hub-load oracle for the vision path returning a pipeline with the
given cache configuration. -/
def loadVisionWith (c : Option Nat) :
    VisionLoaderBuilder → Except Err Pipeline := fun _ => .ok ⟨c⟩

/-! The claims. -/

/-- Claim C1: on the text path, for every text descriptor with a
paged-attention configuration requested, if the loaded pipeline reports no
cache configuration then `build` terminates with the process-terminating
`unwrap` failure, and never returns a recoverable error to the caller for
this condition. -/
theorem text_paged_missing_cache_is_fatal
    (t : TextModelBuilder) (ids : List String) (c : Nat)
    (bestDevice : Bool → Except Err Device)
    (load : NormalLoaderBuilder → Except Err Pipeline)
    (d : Device) (p : Pipeline)
    (hp : t.paged_attn_cfg = some c)
    (hbd : bestDevice t.force_cpu = .ok d)
    (hload : load (textLoader t ids) = .ok p)
    (hcc : p.cache_config = none) :
    buildText t ids none bestDevice load = .panicked ∧
    ∀ e, buildText t ids none bestDevice load ≠ .err e := by
  have hmain : buildText t ids none bestDevice load = .panicked := by
    simp [buildText, resolveDevice, textSchedulerMethod, hbd, hload, hp, hcc]
  refine ⟨hmain, fun e he => ?_⟩
  rw [hmain] at he
  exact absurd he (by simp)

/-- Witness for C1 at a concrete descriptor and oracles. -/
theorem text_paged_missing_cache_is_fatal_witness :
    buildText tEx [] none bdEx (loadTextWith none) = .panicked ∧
    buildText tEx [] none bdEx (loadTextWith none) ≠ .err .conv :=
  ⟨(text_paged_missing_cache_is_fatal tEx [] 0 bdEx (loadTextWith none) 0
      ⟨none⟩ rfl rfl rfl rfl).1,
    (text_paged_missing_cache_is_fatal tEx [] 0 bdEx (loadTextWith none) 0
      ⟨none⟩ rfl rfl rfl rfl).2 .conv⟩

/-- Claim C2: on the vision path, with paged attention requested and a
pipeline reporting no cache configuration, `build` silently falls back to
the default scheduler with `max_num_seqs` fixed slots (subject to the
unsigned-capacity conversion), raising no error for this condition. -/
theorem vision_paged_missing_cache_falls_back
    (v : VisionModelBuilder) (ids : List String) (c : Nat)
    (bestDevice : Bool → Except Err Device)
    (load : VisionLoaderBuilder → Except Err Pipeline)
    (d : Device) (p : Pipeline)
    (hp : v.paged_attn_cfg = some c)
    (hbd : bestDevice v.force_cpu = .ok d)
    (hload : load (visionLoader v ids) = .ok p)
    (hcc : p.cache_config = none) :
    (v.max_num_seqs < capacityBound →
      ∃ m, buildVision v ids bestDevice load = .ok m ∧
        m.runner.method = .DefaultScheduler (.Fixed v.max_num_seqs)) ∧
    (¬ v.max_num_seqs < capacityBound →
      buildVision v ids bestDevice load = .err .conv) := by
  constructor
  · intro hfit
    refine ⟨visionRunner v p (.DefaultScheduler (.Fixed v.max_num_seqs)),
      ?_, (visionRunner_state v p _).1⟩
    simp [buildVision, resolveDevice, visionSchedulerMethod,
      tryIntoCapacity, hbd, hload, hp, hcc, hfit]
  · intro hfit
    simp [buildVision, resolveDevice, visionSchedulerMethod,
      tryIntoCapacity, hbd, hload, hp, hcc, hfit]

/-- Witness for C2 at a concrete descriptor and oracles. -/
theorem vision_paged_missing_cache_falls_back_witness :
    ∃ m, buildVision vEx [] bdEx (loadVisionWith none) = .ok m ∧
      m.runner.method = .DefaultScheduler (.Fixed 8) :=
  (vision_paged_missing_cache_falls_back vEx [] 0 bdEx (loadVisionWith none)
    0 ⟨none⟩ rfl rfl rfl rfl).1 (by decide)

/-- Claim C3: with no paged-attention request, both paths produce the
default scheduler with exactly `max_num_seqs` fixed slots, and fail with
the conversion error when `max_num_seqs` does not fit the capacity type. -/
theorem no_paged_request_default_scheduler :
    (∀ (t : TextModelBuilder) (ids : List String)
        (bestDevice : Bool → Except Err Device)
        (load : NormalLoaderBuilder → Except Err Pipeline)
        (d : Device) (p : Pipeline),
      t.paged_attn_cfg = none →
      bestDevice t.force_cpu = .ok d →
      load (textLoader t ids) = .ok p →
      (t.max_num_seqs < capacityBound →
        ∃ m, buildText t ids none bestDevice load = .ok m ∧
          m.runner.method = .DefaultScheduler (.Fixed t.max_num_seqs)) ∧
      (¬ t.max_num_seqs < capacityBound →
        buildText t ids none bestDevice load = .err .conv)) ∧
    (∀ (v : VisionModelBuilder) (ids : List String)
        (bestDevice : Bool → Except Err Device)
        (load : VisionLoaderBuilder → Except Err Pipeline)
        (d : Device) (p : Pipeline),
      v.paged_attn_cfg = none →
      bestDevice v.force_cpu = .ok d →
      load (visionLoader v ids) = .ok p →
      (v.max_num_seqs < capacityBound →
        ∃ m, buildVision v ids bestDevice load = .ok m ∧
          m.runner.method = .DefaultScheduler (.Fixed v.max_num_seqs)) ∧
      (¬ v.max_num_seqs < capacityBound →
        buildVision v ids bestDevice load = .err .conv)) := by
  constructor
  · intro t ids bestDevice load d p hp hbd hload
    constructor
    · intro hfit
      refine ⟨textRunner t p (.DefaultScheduler (.Fixed t.max_num_seqs)),
        ?_, (textRunner_state t p _).1⟩
      simp [buildText, resolveDevice, textSchedulerMethod,
        tryIntoCapacity, hbd, hload, hp, hfit]
    · intro hfit
      simp [buildText, resolveDevice, textSchedulerMethod,
        tryIntoCapacity, hbd, hload, hp, hfit]
  · intro v ids bestDevice load d p hp hbd hload
    constructor
    · intro hfit
      refine ⟨visionRunner v p (.DefaultScheduler (.Fixed v.max_num_seqs)),
        ?_, (visionRunner_state v p _).1⟩
      simp [buildVision, resolveDevice, visionSchedulerMethod,
        tryIntoCapacity, hbd, hload, hp, hfit]
    · intro hfit
      simp [buildVision, resolveDevice, visionSchedulerMethod,
        tryIntoCapacity, hbd, hload, hp, hfit]

/-- Witness for C3 on both paths at concrete descriptors. -/
theorem no_paged_request_default_scheduler_witness :
    (∃ m, buildText tExNoPaged [] none bdEx (loadTextWith (some 7)) =
        .ok m ∧
      m.runner.method = .DefaultScheduler (.Fixed 16)) ∧
    (∃ m, buildVision vExNoPaged [] bdEx (loadVisionWith (some 7)) =
        .ok m ∧
      m.runner.method = .DefaultScheduler (.Fixed 8)) :=
  ⟨(no_paged_request_default_scheduler.1 tExNoPaged [] bdEx
      (loadTextWith (some 7)) 0 ⟨some 7⟩ rfl rfl rfl).1 (by decide),
    (no_paged_request_default_scheduler.2 vExNoPaged [] bdEx
      (loadVisionWith (some 7)) 0 ⟨some 7⟩ rfl rfl rfl).1 (by decide)⟩

/-- Claim C4: on the text path with paged attention requested and a present
cache configuration, the resulting policy is `PagedAttentionMeta` carrying
the descriptor's `max_num_seqs` and the pipeline's cache configuration. -/
theorem text_paged_present_cache_meta
    (t : TextModelBuilder) (ids : List String) (c : Nat)
    (bestDevice : Bool → Except Err Device)
    (load : NormalLoaderBuilder → Except Err Pipeline)
    (d : Device) (p : Pipeline) (cfg : CacheConfig)
    (hp : t.paged_attn_cfg = some c)
    (hbd : bestDevice t.force_cpu = .ok d)
    (hload : load (textLoader t ids) = .ok p)
    (hcc : p.cache_config = some cfg) :
    ∃ m, buildText t ids none bestDevice load = .ok m ∧
      m.runner.method = .PagedAttentionMeta t.max_num_seqs cfg := by
  refine ⟨textRunner t p (.PagedAttentionMeta t.max_num_seqs cfg),
    ?_, (textRunner_state t p _).1⟩
  simp [buildText, resolveDevice, textSchedulerMethod, hbd, hload, hp, hcc]

/-- Witness for C4 at a concrete descriptor and oracles. -/
theorem text_paged_present_cache_meta_witness :
    ∃ m, buildText tEx [] none bdEx (loadTextWith (some 7)) = .ok m ∧
      m.runner.method = .PagedAttentionMeta 16 7 :=
  text_paged_present_cache_meta tEx [] 0 bdEx (loadTextWith (some 7)) 0
    ⟨some 7⟩ 7 rfl rfl rfl rfl

/-- Claim C5: every vision build hard-disables the no-KV-cache toggle
(`with_no_kv_cache(false)`) regardless of the descriptor, while every text
build passes the caller's `no_kv_cache` field through to the runner. -/
theorem kv_cache_toggle_per_modality :
    (∀ (t : TextModelBuilder) (ids : List String) (lbe : Option Err)
        (bestDevice : Bool → Except Err Device)
        (load : NormalLoaderBuilder → Except Err Pipeline) (m : Model),
      buildText t ids lbe bestDevice load = .ok m →
      m.runner.no_kv_cache = t.no_kv_cache) ∧
    (∀ (v : VisionModelBuilder) (ids : List String)
        (bestDevice : Bool → Except Err Device)
        (load : VisionLoaderBuilder → Except Err Pipeline) (m : Model),
      buildVision v ids bestDevice load = .ok m →
      m.runner.no_kv_cache = false) := by
  constructor
  · intro t ids lbe bestDevice load m h
    obtain ⟨p, sm, rfl⟩ := buildText_ok_inv t ids lbe bestDevice load m h
    exact (textRunner_state t p sm).2.1
  · intro v ids bestDevice load m h
    obtain ⟨p, sm, rfl⟩ := buildVision_ok_inv v ids bestDevice load m h
    exact (visionRunner_state v p sm).2.1

/-- Witness for C5 at concrete successful builds on both paths. -/
theorem kv_cache_toggle_per_modality_witness :
    (textRunner tExNoPaged ⟨some 7⟩
        (.DefaultScheduler (.Fixed 16))).runner.no_kv_cache =
      tExNoPaged.no_kv_cache ∧
    (visionRunner vExNoPaged ⟨some 7⟩
        (.DefaultScheduler (.Fixed 8))).runner.no_kv_cache = false :=
  ⟨kv_cache_toggle_per_modality.1 tExNoPaged [] none bdEx
      (loadTextWith (some 7)) _ rfl,
    kv_cache_toggle_per_modality.2 vExNoPaged [] bdEx
      (loadVisionWith (some 7)) _ rfl⟩

/-- Claim C6: on both paths, the finished runner has prefix caching
disabled exactly when the descriptor's `prefix_cache_n` is `none`, and a
given depth `n` is applied to the runner. -/
theorem runner_pc_toggle :
    (∀ (t : TextModelBuilder) (ids : List String) (lbe : Option Err)
        (bestDevice : Bool → Except Err Device)
        (load : NormalLoaderBuilder → Except Err Pipeline) (m : Model),
      buildText t ids lbe bestDevice load = .ok m →
      ((m.runner.no_prefix_cache = true ↔ t.prefix_cache_n = none) ∧
        ∀ n, t.prefix_cache_n = some n →
          m.runner.prefix_cache_n = some n)) ∧
    (∀ (v : VisionModelBuilder) (ids : List String)
        (bestDevice : Bool → Except Err Device)
        (load : VisionLoaderBuilder → Except Err Pipeline) (m : Model),
      buildVision v ids bestDevice load = .ok m →
      ((m.runner.no_prefix_cache = true ↔ v.prefix_cache_n = none) ∧
        ∀ n, v.prefix_cache_n = some n →
          m.runner.prefix_cache_n = some n)) := by
  constructor
  · intro t ids lbe bestDevice load m h
    obtain ⟨p, sm, rfl⟩ := buildText_ok_inv t ids lbe bestDevice load m h
    constructor
    · rw [(textRunner_state t p sm).2.2.1]
      exact Option.isNone_iff_eq_none
    · intro n hn
      rw [(textRunner_state t p sm).2.2.2, hn]
  · intro v ids bestDevice load m h
    obtain ⟨p, sm, rfl⟩ := buildVision_ok_inv v ids bestDevice load m h
    constructor
    · rw [(visionRunner_state v p sm).2.2.1]
      exact Option.isNone_iff_eq_none
    · intro n hn
      rw [(visionRunner_state v p sm).2.2.2, hn]

/-- Witness for C6: the text fixture has no prefix-cache depth, the vision
fixture carries depth 4. -/
theorem runner_pc_toggle_witness :
    ((textRunner tExNoPaged ⟨some 7⟩
        (.DefaultScheduler (.Fixed 16))).runner.no_prefix_cache = true ↔
      tExNoPaged.prefix_cache_n = none) ∧
    (visionRunner vExNoPaged ⟨some 7⟩
        (.DefaultScheduler (.Fixed 8))).runner.prefix_cache_n = some 4 :=
  ⟨(runner_pc_toggle.1 tExNoPaged [] none bdEx
      (loadTextWith (some 7)) _ rfl).1,
    (runner_pc_toggle.2 vExNoPaged [] bdEx
      (loadVisionWith (some 7)) _ rfl).2 4 rfl⟩

/-- Claim C7: the projected text `NormalSpecificConfig` always has
`imatrix = none` and `calibration_file = none`, whatever the descriptor. -/
theorem text_config_vision_only_fields_none (t : TextModelBuilder) :
    (textLoadConfig t).imatrix = none ∧
    (textLoadConfig t).calibration_file = none :=
  ⟨rfl, rfl⟩

/-- Claim C8: the Config Projector is a pure, total function on both
modalities: it is defined for every descriptor and projecting the same
descriptor twice yields identical configurations. -/
theorem config_projector_pure (t : TextModelBuilder)
    (v : VisionModelBuilder) :
    textLoadConfig t = textLoadConfig t ∧
    visionLoadConfig v = visionLoadConfig v :=
  ⟨rfl, rfl⟩

/-- Claim C9: `build` attaches the adapter list unconditionally (the
assembled loader carries exactly the given list, for every list including
the empty one), and with an empty list the assembled loader is the very
loader obtained when no LoRA support is requested. -/
theorem adapter_attachment_unconditional (t : TextModelBuilder)
    (v : VisionModelBuilder) (ids : List String) :
    (textLoader t ids).lora_adapter_ids = ids ∧
    (visionLoader v ids).lora_adapter_ids = ids ∧
    textLoader t [] = textLoaderNoLora t ∧
    visionLoader v [] = visionLoaderNoLora v :=
  ⟨rfl, rfl, rfl, rfl⟩

/-- Claim C10: on the text path, a loader-finalization error is returned
from `build` unchanged, before any model loading occurs (the outcome is the
error for every load oracle); on the vision path loader finalization cannot
fail, and a vision build error comes only from the device probe, hub
loading, or the `max_num_seqs` conversion. -/
theorem loader_finalization_error_paths :
    (∀ (t : TextModelBuilder) (ids : List String) (e : Err)
        (bestDevice : Bool → Except Err Device)
        (load : NormalLoaderBuilder → Except Err Pipeline),
      buildText t ids (some e) bestDevice load = .err e) ∧
    (∀ (v : VisionModelBuilder) (ids : List String)
        (bestDevice : Bool → Except Err Device)
        (load : VisionLoaderBuilder → Except Err Pipeline) (e : Err),
      buildVision v ids bestDevice load = .err e →
        bestDevice v.force_cpu = .error e ∨
        load (visionLoader v ids) = .error e ∨ e = .conv) :=
  ⟨fun _ _ _ _ _ => rfl,
    fun v ids bestDevice load e h =>
      buildVision_err_inv v ids bestDevice load e h⟩

/-- Witness for C10: a concrete text finalization failure is returned
verbatim, and a concrete failing vision build's error traces to the device
probe. -/
theorem loader_finalization_error_paths_witness :
    buildText tEx [] (some (.ext 3)) bdEx (loadTextWith none) =
      .err (.ext 3) ∧
    (bdExFail vEx.force_cpu = .error (.ext 5) ∨
      loadVisionWith none (visionLoader vEx []) = .error (.ext 5) ∨
      (Err.ext 5) = .conv) :=
  ⟨loader_finalization_error_paths.1 tEx [] (.ext 3) bdEx
      (loadTextWith none),
    loader_finalization_error_paths.2 vEx [] bdExFail (loadVisionWith none)
      (.ext 5) rfl⟩
